import Mathlib

/-
  Verification of the Fanatec ClubSport Pedals Monitor (src/main.c) against its
  natural-language specification.

  Shallow embedding notes:
  - DWORD (unsigned 32-bit) values are modelled as Nat; where C arithmetic can
    wrap, the wrap is made explicit with `% dwordMod`.
  - GetTickCount timestamps are modelled as a monotonic Nat counter; the design
    (spec section 5) assumes runs shorter than the wraparound period, and every
    stored timestamp is a past tick, so elapsed-time subtraction is Nat
    subtraction.
  - Division by zero is undefined behavior in C; where a division's divisor is
    not syntactically guarded, a checked (Option-valued) variant models it.
-/

set_option maxHeartbeats 1000000

/-- Modulus of unsigned 32-bit (DWORD) arithmetic. -/
def dwordMod : Nat := 4294967296

/-- Clutch detector state: struct fields lastClutchValue / repeatingClutchCount
of PedalMonState (main.c lines 210-211). -/
structure ClutchState where
  lastClutchValue : Nat
  repeatingClutchCount : Nat
deriving Repr, DecidableEq

/-- Gas state machine fields of PedalMonState (main.c lines 220-224). -/
structure GasState where
  isRacing : Bool
  peakGasInWindow : Nat
  lastFullThrottleTime : Nat
  lastGasActivityTime : Nat
  lastGasAlertTime : Nat
deriving Repr, DecidableEq

/-- Gas deadzone-out estimator state of PedalMonState (main.c lines 237-241). -/
structure EstimatorState where
  best_estimate_percent : Nat
  last_printed_estimate : Nat
  estimate_window_peak_percent : Nat
  estimate_window_start_time : Nat
  last_estimate_print_time : Nat
deriving Repr, DecidableEq

/-- Configuration fields of PedalMonState relevant to the tick logic, together
with the derived thresholds (gasIdleMax, gasFullMin, axisMargin, *_ms) that the
program precomputes (main.c lines 62-229, 1338, 1360-1366).  gas_deadzone_out
and gasFullMin are the two fields mutated at runtime by auto-adjust. -/
structure Config where
  monitor_clutch : Bool
  monitor_gas : Bool
  axis_normalization_enabled : Bool
  estimate_gas_deadzone_enabled : Bool
  auto_gas_deadzone_enabled : Bool
  gas_deadzone_in : Nat
  gas_deadzone_out : Nat
  auto_gas_deadzone_minimum : Nat
  gas_min_usage_percent : Nat
  clutch_repeat_required : Nat
  axisMax : Nat
  axisMargin : Nat
  gasIdleMax : Nat
  gasFullMin : Nat
  gas_timeout_ms : Nat
  gas_window_ms : Nat
  gas_cooldown_ms : Nat
deriving Repr, DecidableEq

/-- One device read: info.dwYpos, info.dwRpos and the GetTickCount timestamp of
the tick (main.c lines 1484-1488). -/
structure Sample where
  rawGas : Nat
  rawClutch : Nat
  currentTime : Nat
deriving Repr, DecidableEq

/-- Per-iteration event flags of PedalMonState (main.c lines 272-277).
controller_disconnected is latched; the rest are one-shots. -/
structure EventFlags where
  gas_alert_triggered : Bool
  clutch_alert_triggered : Bool
  controller_disconnected : Bool
  controller_reconnected : Bool
  gas_estimate_decreased : Bool
  gas_auto_adjust_applied : Bool
deriving Repr, DecidableEq

/-- The monitor's full mutable state threaded through the main loop. -/
structure MonState where
  cfg : Config
  cs : ClutchState
  gs : GasState
  es : EstimatorState
  flags : EventFlags
deriving Repr, DecidableEq

/-- normalize_pedal_axis (main.c lines 464-472): mirror the range when axis
normalization is enabled (`axis_max - raw_value` in DWORD arithmetic),
otherwise use the raw value directly. -/
def normalize_pedal_axis (axis_normalization_enabled : Bool)
    (raw_value axis_max : Nat) : Nat :=
  if axis_normalization_enabled then
    (axis_max + dwordMod - raw_value) % dwordMod
  else
    raw_value

/-- ComputeLogicalPct (main.c lines 314-334): map a value into 0..100 based on
idle/full thresholds, with the misconfiguration guard and the unsigned 32-bit
linear interpolation `100u * (value - idleMax) / (fullMin - idleMax)`. -/
def ComputeLogicalPct (value idleMax fullMin : Nat) : Nat :=
  if value ≤ idleMax then 0
  else if fullMin ≤ value then 100
  else if fullMin ≤ idleMax then 0
  else 100 * (value - idleMax) % dwordMod / (fullMin - idleMax)

/-- Drift alert threshold comparison (main.c line 1658): strict
`percentReached > gas_min_usage_percent`. -/
def gasDriftAlertCond (percentReached gas_min_usage_percent : Nat) : Bool :=
  decide (gas_min_usage_percent < percentReached)

/-- Estimator window acceptance comparison (main.c line 1724): non-strict
`estimate_window_peak_percent >= gas_min_usage_percent`. -/
def estimatorAcceptCond (windowPeakPercent gas_min_usage_percent : Nat) : Bool :=
  decide (gas_min_usage_percent ≤ windowPeakPercent)

/-- Checked embedding of the drift detector's percentage computation
`(st.peakGasInWindow * 100U) / st.axisMax` (main.c lines 1644-1645).  C
unsigned division by zero is undefined behavior, modelled as `none`; the
multiplication is DWORD arithmetic. -/
def driftPercentReached? (peakGasInWindow axisMax : Nat) : Option Nat :=
  if axisMax = 0 then none
  else some (peakGasInWindow * 100 % dwordMod / axisMax)

/-- Axis resolution selected from the joystick flags (main.c lines 1288 and
1450): 1023 with JOY_RETURNRAWDATA, 65535 otherwise. -/
def axisMaxFor (returnRawData : Bool) : Nat :=
  if returnRawData then 1023 else 65535

/-- Clutch stickiness counter update (main.c lines 1542-1555): the value of
repeatingClutchCount after the precondition / closure test, before the alert
threshold is checked. -/
def clutchMidCount (cfg : Config) (cs : ClutchState)
    (gasValue clutchValue : Nat) : Nat :=
  if gasValue ≤ cfg.gasIdleMax ∧ 0 < clutchValue then
    let closure :=
      if cs.lastClutchValue ≤ clutchValue then clutchValue - cs.lastClutchValue
      else cs.lastClutchValue - clutchValue
    if closure ≤ cfg.axisMargin then cs.repeatingClutchCount + 1 else 0
  else 0

/-- One tick of the clutch noise detector (main.c lines 1542-1572): update the
counter, store lastClutchValue unconditionally, then fire (and reset the
counter) when the counter reaches clutch_repeat_required.  The Bool is the
clutch_alert_triggered one-shot. -/
def clutchTick (cfg : Config) (cs : ClutchState)
    (gasValue clutchValue : Nat) : ClutchState × Bool :=
  let mid := clutchMidCount cfg cs gasValue clutchValue
  if cfg.clutch_repeat_required ≤ mid then
    ({ lastClutchValue := clutchValue, repeatingClutchCount := 0 }, true)
  else
    ({ lastClutchValue := clutchValue, repeatingClutchCount := mid }, false)

/-- Gas drift window evaluation (main.c lines 1638-1691), reached while racing
with gasValue below gasFullMin: once the window has elapsed and the cooldown
allows it, compute percentReached and alert when it strictly exceeds
gas_min_usage_percent; on fire only lastGasAlertTime is written.  The Bool is
the gas_alert_triggered one-shot. -/
def driftCheck (cfg : Config) (gs : GasState) (currentTime : Nat) :
    GasState × Bool :=
  if cfg.gas_window_ms < currentTime - gs.lastFullThrottleTime then
    if cfg.gas_cooldown_ms < currentTime - gs.lastGasAlertTime then
      let percentReached := gs.peakGasInWindow * 100 % dwordMod / cfg.axisMax
      if gasDriftAlertCond percentReached cfg.gas_min_usage_percent then
        ({ gs with lastGasAlertTime := currentTime }, true)
      else (gs, false)
    else (gs, false)
  else (gs, false)

/-- Gas activity tracking, GasState part (main.c lines 1580-1614): enter racing
on gas above the idle band (resetting the drift window when coming from idle),
leave racing after gas_timeout of idle. -/
def gasActivityGas (cfg : Config) (gs : GasState)
    (currentTime gasValue : Nat) : GasState :=
  if cfg.gasIdleMax < gasValue then
    if gs.isRacing then
      { gs with isRacing := true, lastGasActivityTime := currentTime }
    else
      { gs with lastFullThrottleTime := currentTime, peakGasInWindow := 0,
                isRacing := true, lastGasActivityTime := currentTime }
  else if gs.isRacing ∧ cfg.gas_timeout_ms < currentTime - gs.lastGasActivityTime then
    { gs with isRacing := false }
  else gs

/-- Gas activity tracking, EstimatorState part (main.c lines 1588-1591 and
1609-1612): the estimation window restarts on the idle-to-racing transition and
on the racing-to-idle timeout, when estimation is enabled. -/
def gasActivityEstim (cfg : Config) (gs : GasState) (es : EstimatorState)
    (currentTime gasValue : Nat) : EstimatorState :=
  if cfg.gasIdleMax < gasValue then
    if gs.isRacing then es
    else if cfg.estimate_gas_deadzone_enabled then
      { es with estimate_window_start_time := currentTime,
                estimate_window_peak_percent := 0 }
    else es
  else if gs.isRacing ∧ cfg.gas_timeout_ms < currentTime - gs.lastGasActivityTime then
    if cfg.estimate_gas_deadzone_enabled then
      { es with estimate_window_start_time := currentTime,
                estimate_window_peak_percent := 0 }
    else es
  else es

/-- Estimation window peak update (main.c lines 1700-1706): while gas is above
the idle band, raise the window peak to the current percentage
`(gasValue * 100U) / axisMax` (DWORD arithmetic). -/
def estimObservedPeak (cfg : Config) (es : EstimatorState) (gasValue : Nat) : Nat :=
  if cfg.gasIdleMax < gasValue then
    let currentPercent := gasValue * 100 % dwordMod / cfg.axisMax
    if es.estimate_window_peak_percent < currentPercent then currentPercent
    else es.estimate_window_peak_percent
  else es.estimate_window_peak_percent

/-- Result of one estimator step: possibly auto-adjusted configuration, new
estimator state, and the gas_estimate_decreased / gas_auto_adjust_applied
one-shots. -/
structure EstimResult where
  cfg : Config
  es : EstimatorState
  gas_estimate_decreased : Bool
  gas_auto_adjust_applied : Bool
deriving Repr, DecidableEq

/-- Gas deadzone-out estimation and optional auto-adjust (main.c lines
1695-1789), reached while racing with estimation enabled: update the window
peak; when the window closes, accept it as a candidate when the peak reaches
gas_min_usage_percent (non-strict) and improves (strictly lowers) the best
estimate; optionally print and auto-adjust; finally restart the window. -/
def estimTick (cfg : Config) (es : EstimatorState)
    (currentTime gasValue : Nat) : EstimResult :=
  let peak := estimObservedPeak cfg es gasValue
  let es1 : EstimatorState := { es with estimate_window_peak_percent := peak }
  if cfg.gas_cooldown_ms ≤ currentTime - es1.estimate_window_start_time then
    if estimatorAcceptCond es1.estimate_window_peak_percent cfg.gas_min_usage_percent then
      if es1.estimate_window_peak_percent < es1.best_estimate_percent then
        let candidate := es1.estimate_window_peak_percent
        let es2 : EstimatorState := { es1 with best_estimate_percent := candidate }
        let es3 : EstimatorState :=
          if candidate < es2.last_printed_estimate ∧
             cfg.gas_cooldown_ms ≤ currentTime - es2.last_estimate_print_time then
            { es2 with last_printed_estimate := candidate,
                       last_estimate_print_time := currentTime }
          else es2
        let decFlag : Bool :=
          decide (candidate < es2.last_printed_estimate ∧
                  cfg.gas_cooldown_ms ≤ currentTime - es2.last_estimate_print_time)
        let adjFlag : Bool :=
          cfg.auto_gas_deadzone_enabled &&
          decide (candidate < cfg.gas_deadzone_out) &&
          decide (cfg.auto_gas_deadzone_minimum ≤ candidate)
        let cfg1 : Config :=
          if adjFlag then
            { cfg with gas_deadzone_out := candidate,
                       gasFullMin := cfg.axisMax * candidate / 100 }
          else cfg
        { cfg := cfg1,
          es := { es3 with estimate_window_start_time := currentTime,
                           estimate_window_peak_percent := 0 },
          gas_estimate_decreased := decFlag,
          gas_auto_adjust_applied := adjFlag }
      else
        { cfg := cfg,
          es := { es1 with estimate_window_start_time := currentTime,
                           estimate_window_peak_percent := 0 },
          gas_estimate_decreased := false, gas_auto_adjust_applied := false }
    else
      { cfg := cfg,
        es := { es1 with estimate_window_start_time := currentTime,
                         estimate_window_peak_percent := 0 },
        gas_estimate_decreased := false, gas_auto_adjust_applied := false }
  else
    { cfg := cfg, es := es1,
      gas_estimate_decreased := false, gas_auto_adjust_applied := false }

/-- Result of the full gas-monitoring step: configuration (auto-adjust may
mutate it), gas and estimator state, and the gas one-shot event flags. -/
structure GasResult where
  cfg : Config
  gs : GasState
  es : EstimatorState
  gas_alert_triggered : Bool
  gas_estimate_decreased : Bool
  gas_auto_adjust_applied : Bool
deriving Repr, DecidableEq

/-- One tick of gas monitoring (main.c lines 1577-1792): activity tracking,
then (while racing) the peak update, full-throttle reset or drift window
evaluation, and the estimator. -/
def gasTick (cfg : Config) (gs : GasState) (es : EstimatorState)
    (currentTime gasValue : Nat) : GasResult :=
  let gs1 := gasActivityGas cfg gs currentTime gasValue
  let es1 := gasActivityEstim cfg gs es currentTime gasValue
  if gs1.isRacing then
    let gs2 : GasState :=
      { gs1 with peakGasInWindow :=
          if gs1.peakGasInWindow < gasValue then gasValue else gs1.peakGasInWindow }
    let dres : GasState × Bool :=
      if cfg.gasFullMin ≤ gasValue then
        ({ gs2 with lastFullThrottleTime := currentTime, peakGasInWindow := 0 }, false)
      else driftCheck cfg gs2 currentTime
    if cfg.estimate_gas_deadzone_enabled then
      let eres := estimTick cfg es1 currentTime gasValue
      { cfg := eres.cfg, gs := dres.1, es := eres.es,
        gas_alert_triggered := dres.2,
        gas_estimate_decreased := eres.gas_estimate_decreased,
        gas_auto_adjust_applied := eres.gas_auto_adjust_applied }
    else
      { cfg := cfg, gs := dres.1, es := es1, gas_alert_triggered := dres.2,
        gas_estimate_decreased := false, gas_auto_adjust_applied := false }
  else
    { cfg := cfg, gs := gs1, es := es1, gas_alert_triggered := false,
      gas_estimate_decreased := false, gas_auto_adjust_applied := false }

/-- Per-iteration one-shot flag reset (main.c lines 1394-1398).
controller_disconnected is latched and deliberately not cleared here. -/
def clearOneShots (f : EventFlags) : EventFlags :=
  { gas_alert_triggered := false, clutch_alert_triggered := false,
    controller_disconnected := f.controller_disconnected,
    controller_reconnected := false, gas_estimate_decreased := false,
    gas_auto_adjust_applied := false }

/-- Reconnect-success handler (main.c lines 1450-1465): recompute axisMax and
the gas thresholds, and reset the clutch, gas and estimator runtime state.
The source writes every GasState field here except lastGasAlertTime, which it
leaves untouched. -/
def reconnectReset (cfg : Config) (gs : GasState) (reconnectTime : Nat)
    (returnRawData : Bool) : Config × ClutchState × GasState × EstimatorState :=
  let axisMax := axisMaxFor returnRawData
  ({ cfg with axisMax := axisMax,
              gasIdleMax := axisMax * cfg.gas_deadzone_in / 100,
              gasFullMin := axisMax * cfg.gas_deadzone_out / 100 },
   { lastClutchValue := 0, repeatingClutchCount := 0 },
   { isRacing := false, peakGasInWindow := 0,
     lastFullThrottleTime := reconnectTime,
     lastGasActivityTime := reconnectTime,
     lastGasAlertTime := gs.lastGasAlertTime },
   { best_estimate_percent := 100, last_printed_estimate := 100,
     estimate_window_peak_percent := 0,
     estimate_window_start_time := reconnectTime,
     last_estimate_print_time := 0 })

/-- One iteration of the main loop (main.c lines 1378-1809): clear the
one-shots, read the device, and either run the reconnect supervisor (read
failure with identity configured: latch disconnected, publish, rediscover at
reconnectTime, reset state, publish), skip the frame (read failure without
identity), or process the sample (normalize, clutch and gas monitoring,
publish).  The Nat counts Telemetry_Publish calls made during the iteration. -/
def monitorTick (identityConfigured : Bool) (readResult : Option Sample)
    (reconnectTime : Nat) (returnRawData : Bool) (s : MonState) :
    MonState × Nat :=
  let f0 := clearOneShots s.flags
  match readResult with
  | none =>
    if identityConfigured then
      let r := reconnectReset s.cfg s.gs reconnectTime returnRawData
      ({ cfg := r.1, cs := r.2.1, gs := r.2.2.1, es := r.2.2.2,
         flags := { f0 with controller_disconnected := false,
                            controller_reconnected := true } }, 2)
    else
      ({ s with flags := f0 }, 0)
  | some sample =>
    let gasValue :=
      normalize_pedal_axis s.cfg.axis_normalization_enabled sample.rawGas s.cfg.axisMax
    let clutchValue :=
      normalize_pedal_axis s.cfg.axis_normalization_enabled sample.rawClutch s.cfg.axisMax
    let cres : ClutchState × Bool :=
      if s.cfg.monitor_clutch then clutchTick s.cfg s.cs gasValue clutchValue
      else (s.cs, false)
    let gres : GasResult :=
      if s.cfg.monitor_gas then gasTick s.cfg s.gs s.es sample.currentTime gasValue
      else { cfg := s.cfg, gs := s.gs, es := s.es, gas_alert_triggered := false,
             gas_estimate_decreased := false, gas_auto_adjust_applied := false }
    ({ cfg := gres.cfg, cs := cres.1, gs := gres.gs, es := gres.es,
       flags := { gas_alert_triggered := gres.gas_alert_triggered,
                  clutch_alert_triggered := cres.2,
                  controller_disconnected := f0.controller_disconnected,
                  controller_reconnected := false,
                  gas_estimate_decreased := gres.gas_estimate_decreased,
                  gas_auto_adjust_applied := gres.gas_auto_adjust_applied } }, 1)

/-- A run of consecutive successful ticks (no read failure, hence no
intervening reconnect): fold monitorTick over the samples. -/
def runTicks (inputs : List Sample) (s : MonState) : MonState :=
  inputs.foldl (fun st i => (monitorTick false (some i) 0 false st).1) s

/-- Default configuration as initialized in main (main.c lines 1189-1248) with
clutch and gas monitoring and estimation enabled, default flags (no raw data,
so axisMax = 65535, main.c line 1288) and the derived thresholds of lines
1338, 1360-1366. -/
def defaultConfig : Config :=
  { monitor_clutch := true, monitor_gas := true,
    axis_normalization_enabled := true,
    estimate_gas_deadzone_enabled := true,
    auto_gas_deadzone_enabled := false,
    gas_deadzone_in := 5, gas_deadzone_out := 93,
    auto_gas_deadzone_minimum := 0, gas_min_usage_percent := 20,
    clutch_repeat_required := 4,
    axisMax := 65535, axisMargin := 3276,
    gasIdleMax := 3276, gasFullMin := 60947,
    gas_timeout_ms := 10000, gas_window_ms := 30000, gas_cooldown_ms := 60000 }

/-- Initial monitor state at startup time t (main.c lines 1189-1248). -/
def initMonState (t : Nat) : MonState :=
  { cfg := defaultConfig,
    cs := { lastClutchValue := 0, repeatingClutchCount := 0 },
    gs := { isRacing := false, peakGasInWindow := 0,
            lastFullThrottleTime := t, lastGasActivityTime := t,
            lastGasAlertTime := 0 },
    es := { best_estimate_percent := 100, last_printed_estimate := 100,
            estimate_window_peak_percent := 0,
            estimate_window_start_time := t, last_estimate_print_time := 0 },
    flags := { gas_alert_triggered := false, clutch_alert_triggered := false,
               controller_disconnected := false, controller_reconnected := false,
               gas_estimate_decreased := false, gas_auto_adjust_applied := false } }

/- ======================== Theorems ======================== -/

/-- Claim C7: normalize_pedal_axis with invert=false is the identity on the raw
value; with invert=true it returns axisMax - raw (under the caller guarantee
raw ≤ axisMax), and applying it twice with the same axisMax returns the
original value. -/
theorem normalize_pedal_axis_identity_involution (raw axisMax : Nat)
    (hraw : raw < dwordMod) (hmax : axisMax < dwordMod) :
    normalize_pedal_axis false raw axisMax = raw ∧
    (raw ≤ axisMax → normalize_pedal_axis true raw axisMax = axisMax - raw) ∧
    normalize_pedal_axis true (normalize_pedal_axis true raw axisMax) axisMax = raw := by
  unfold normalize_pedal_axis dwordMod at *
  simp only [if_true, if_false, Bool.false_eq_true, reduceIte]
  refine ⟨trivial, fun h => by omega, by omega⟩

/-- Witness for the claim C7 theorem at raw = 40, axisMax = 1023. -/
theorem normalize_pedal_axis_identity_involution_witness :
    normalize_pedal_axis false 40 1023 = 40 ∧
    (40 ≤ 1023 → normalize_pedal_axis true 40 1023 = 1023 - 40) ∧
    normalize_pedal_axis true (normalize_pedal_axis true 40 1023) 1023 = 40 :=
  normalize_pedal_axis_identity_involution 40 1023 (by decide) (by decide)

/-- Counterexample for claim C10: with value = 1, idleMax = 0, fullMin = 1000
(well-configured thresholds, value strictly between them) the interpolation
branch returns 0, which is not strictly between 0 and 100; and with value = 5,
idleMax = 3, fullMin = 2 (misconfigured: fullMin ≤ idleMax) the function
returns 100, not 0. -/
theorem ComputeLogicalPct_counterexample :
    (0 < 1 ∧ 1 < 1000 ∧ 0 < 1000 ∧ ComputeLogicalPct 1 0 1000 = 0) ∧
    (2 ≤ 3 ∧ 3 < 5 ∧ ComputeLogicalPct 5 3 2 = 100) := by decide

/-- Claim C10 (amended): ComputeLogicalPct always returns a result in [0, 100];
it is 0 or 100 except in the interpolation branch (idleMax < value < fullMin,
hence idleMax < fullMin, so no division by zero), where the truncated linear
interpolation lies in [0, 99] — it can equal 0, and the misconfigured-threshold
guard branch is unreachable (value ≥ fullMin already returned 100). -/
theorem ComputeLogicalPct_range (value idleMax fullMin : Nat) :
    ComputeLogicalPct value idleMax fullMin ≤ 100 ∧
    (ComputeLogicalPct value idleMax fullMin = 0 ∨
     ComputeLogicalPct value idleMax fullMin = 100 ∨
     (idleMax < value ∧ value < fullMin ∧ idleMax < fullMin ∧
      ComputeLogicalPct value idleMax fullMin ≤ 99)) := by
  unfold ComputeLogicalPct
  by_cases h1 : value ≤ idleMax
  · simp [h1]
  · by_cases h2 : fullMin ≤ value
    · simp [h1, h2]
    · have h3 : ¬ (fullMin ≤ idleMax) := by omega
      simp only [h1, h2, h3, if_false, reduceIte]
      have hq : 100 * (value - idleMax) % dwordMod / (fullMin - idleMax) < 100 := by
        rw [Nat.div_lt_iff_lt_mul (by omega : 0 < fullMin - idleMax)]
        unfold dwordMod
        omega
      refine ⟨by omega, Or.inr (Or.inr ⟨by omega, by omega, by omega, by omega⟩)⟩

/-- Claim C6: the drift alert condition (strict) implies the estimator window
acceptance condition (non-strict) — acceptance is exactly alert-or-equality —
and at percentReached = gas_min_usage_percent the alert does not fire while the
estimator does accept. -/
theorem drift_alert_stricter_than_estimator (p m : Nat) :
    estimatorAcceptCond p m = (gasDriftAlertCond p m || (p == m)) ∧
    gasDriftAlertCond m m = false ∧
    estimatorAcceptCond m m = true := by
  unfold estimatorAcceptCond gasDriftAlertCond
  refine ⟨?_, by simp, by simp⟩
  rcases Nat.lt_trichotomy m p with h | h | h
  · simp [h, Nat.le_of_lt h, Nat.ne_of_gt h]
  · simp [h]
  · simp [Nat.not_le.mpr h, Nat.not_lt.mpr (Nat.le_of_lt h), Nat.ne_of_lt h]

/-- Claim C8: the gas drift window evaluation returns the input GasState with
at most lastGasAlertTime changed (set to the current time exactly when the
alert one-shot fires); in particular lastFullThrottleTime and peakGasInWindow
are never modified by the firing, so the window keeps accumulating. -/
theorem gas_alert_firing_frame (cfg : Config) (gs : GasState) (currentTime : Nat) :
    (driftCheck cfg gs currentTime).1 =
      { gs with lastGasAlertTime :=
          if (driftCheck cfg gs currentTime).2 then currentTime
          else gs.lastGasAlertTime } := by
  unfold driftCheck
  dsimp only
  split
  · split
    · by_cases hc : gasDriftAlertCond
          (gs.peakGasInWindow * 100 % dwordMod / cfg.axisMax)
          cfg.gas_min_usage_percent = true
      · simp [hc]
      · simp [hc]
    · rfl
  · rfl

/-- Claim C9: on a read failure with no vendor/product identity configured, the
iteration only clears the per-frame one-shot flags: configuration, clutch, gas
and estimator state are unchanged, no telemetry frame is published (count 0),
no alert fires and no reconnect occurs. -/
theorem read_failure_no_identity_skips_tick (s : MonState)
    (reconnectTime : Nat) (returnRawData : Bool) :
    monitorTick false none reconnectTime returnRawData s =
      ({ s with flags := clearOneShots s.flags }, 0) := rfl

/-- Counterexample for claim C1: the reconnect-success handler does not reset
lastGasAlertTime.  Starting from a GasState with lastGasAlertTime = 7 and
reconnecting at time 9, the field is still 7 afterwards — neither its startup
initial value 0 nor the reconnect time. -/
theorem reconnect_keeps_lastGasAlertTime_counterexample :
    (reconnectReset defaultConfig
        { isRacing := true, peakGasInWindow := 5, lastFullThrottleTime := 3,
          lastGasActivityTime := 4, lastGasAlertTime := 7 }
        9 false).2.2.1.lastGasAlertTime = 7 ∧
    (7 : Nat) ≠ 0 ∧ (7 : Nat) ≠ 9 := by decide

/-- Claim C1 (amended): on a successful reconnection the handler resets
ClutchState to {0, 0}, GasState to its initial value except lastGasAlertTime
(which is left unchanged from before the disconnect; it is 0 only at startup),
EstimatorState to its initial value (best and printed estimates 100, peak 0,
window start at the reconnect time, print time 0), and recomputes axisMax,
gasIdleMax and gasFullMin from the (possibly new) device resolution, leaving
the rest of the configuration unchanged. -/
theorem reconnect_resets_state_except_gas_alert_time (cfg : Config)
    (gs : GasState) (t : Nat) (returnRawData : Bool) :
    (reconnectReset cfg gs t returnRawData).1.axisMax = axisMaxFor returnRawData ∧
    (reconnectReset cfg gs t returnRawData).1.gasIdleMax =
      axisMaxFor returnRawData * cfg.gas_deadzone_in / 100 ∧
    (reconnectReset cfg gs t returnRawData).1.gasFullMin =
      axisMaxFor returnRawData * cfg.gas_deadzone_out / 100 ∧
    (reconnectReset cfg gs t returnRawData).1.gas_deadzone_out = cfg.gas_deadzone_out ∧
    (reconnectReset cfg gs t returnRawData).1.gas_deadzone_in = cfg.gas_deadzone_in ∧
    (reconnectReset cfg gs t returnRawData).2.1 =
      { lastClutchValue := 0, repeatingClutchCount := 0 } ∧
    (reconnectReset cfg gs t returnRawData).2.2.1 =
      { isRacing := false, peakGasInWindow := 0, lastFullThrottleTime := t,
        lastGasActivityTime := t, lastGasAlertTime := gs.lastGasAlertTime } ∧
    (reconnectReset cfg gs t returnRawData).2.2.2 =
      { best_estimate_percent := 100, last_printed_estimate := 100,
        estimate_window_peak_percent := 0, estimate_window_start_time := t,
        last_estimate_print_time := 0 } :=
  ⟨rfl, rfl, rfl, rfl, rfl, rfl, rfl, rfl⟩

/-- Counterexample for claim C2: the drift detector's percentReached
computation has no axisMax = 0 guard.  At axisMax = 0 it performs the division
by zero (undefined behavior, modelled as none) instead of being treated as 0. -/
theorem drift_percent_zero_axisMax_counterexample :
    driftPercentReached? 500 0 = none ∧ driftPercentReached? 500 0 ≠ some 0 := by
  decide

/-- Claim C2 (amended): the drift evaluation contains no defensive guard for
axisMax = 0; the computation is safe only because every axisMax the program
installs (startup, main.c line 1288, and reconnect, line 1450) is 1023 or
65535, hence positive, so every tick reaching the percentReached computation
divides by a positive axisMax and yields the value driftCheck uses. -/
theorem drift_percent_division_safe_for_program_axisMax
    (returnRawData : Bool) (peakGasInWindow : Nat) :
    0 < axisMaxFor returnRawData ∧
    driftPercentReached? peakGasInWindow (axisMaxFor returnRawData) =
      some (peakGasInWindow * 100 % dwordMod / axisMaxFor returnRawData) := by
  cases returnRawData <;> simp [axisMaxFor, driftPercentReached?]

/-- Claim C5: starting from any reachable clutch state (counter below the
required repeat count), on one clutch detector tick the counter never exceeds
clutch_repeat_required before the alert check, is exactly 0 immediately after
the alert fires, is exactly 0 after any tick violating the stickiness
precondition (gas idle and clutch pressed), lastClutchValue is set to the
current clutch value on every tick, and the counter stays below the threshold
afterwards. -/
theorem clutch_detector_count_invariants (cfg : Config) (cs : ClutchState)
    (gasValue clutchValue : Nat)
    (h : cs.repeatingClutchCount < cfg.clutch_repeat_required) :
    clutchMidCount cfg cs gasValue clutchValue ≤ cfg.clutch_repeat_required ∧
    ((clutchTick cfg cs gasValue clutchValue).2 = true →
      (clutchTick cfg cs gasValue clutchValue).1.repeatingClutchCount = 0) ∧
    (¬ (gasValue ≤ cfg.gasIdleMax ∧ 0 < clutchValue) →
      (clutchTick cfg cs gasValue clutchValue).1.repeatingClutchCount = 0) ∧
    (clutchTick cfg cs gasValue clutchValue).1.lastClutchValue = clutchValue ∧
    (clutchTick cfg cs gasValue clutchValue).1.repeatingClutchCount <
      cfg.clutch_repeat_required := by
  have hmid : clutchMidCount cfg cs gasValue clutchValue = 0 ∨
      clutchMidCount cfg cs gasValue clutchValue = cs.repeatingClutchCount + 1 := by
    unfold clutchMidCount
    split
    · dsimp only
      by_cases hc : (if cs.lastClutchValue ≤ clutchValue then
          clutchValue - cs.lastClutchValue
          else cs.lastClutchValue - clutchValue) ≤ cfg.axisMargin
      · rw [if_pos hc]
        exact Or.inr rfl
      · rw [if_neg hc]
        exact Or.inl rfl
    · exact Or.inl rfl
  have hmid0 : ¬ (gasValue ≤ cfg.gasIdleMax ∧ 0 < clutchValue) →
      clutchMidCount cfg cs gasValue clutchValue = 0 := by
    intro hpre
    unfold clutchMidCount
    simp [hpre]
  unfold clutchTick
  dsimp only
  by_cases hfire : cfg.clutch_repeat_required ≤ clutchMidCount cfg cs gasValue clutchValue
  · rw [if_pos hfire]
    exact ⟨by omega, fun _ => rfl, fun _ => rfl, rfl,
      (by omega : (0 : Nat) < cfg.clutch_repeat_required)⟩
  · rw [if_neg hfire]
    refine ⟨by omega, ?_, ?_, rfl, ?_⟩
    · intro hc
      exact absurd hc (by simp)
    · intro hpre
      exact (hmid0 hpre :
        clutchMidCount cfg cs gasValue clutchValue = 0)
    · exact (by omega :
        clutchMidCount cfg cs gasValue clutchValue < cfg.clutch_repeat_required)

/-- Witness for the claim C5 theorem: default configuration, fresh clutch
state, gas idle (0) and clutch held at 40. -/
theorem clutch_detector_count_invariants_witness :
    clutchMidCount defaultConfig
        { lastClutchValue := 0, repeatingClutchCount := 0 } 0 40 ≤
      defaultConfig.clutch_repeat_required ∧
    ((clutchTick defaultConfig
        { lastClutchValue := 0, repeatingClutchCount := 0 } 0 40).2 = true →
      (clutchTick defaultConfig
        { lastClutchValue := 0, repeatingClutchCount := 0 } 0 40).1.repeatingClutchCount = 0) ∧
    (¬ ((0 : Nat) ≤ defaultConfig.gasIdleMax ∧ (0 : Nat) < 40) →
      (clutchTick defaultConfig
        { lastClutchValue := 0, repeatingClutchCount := 0 } 0 40).1.repeatingClutchCount = 0) ∧
    (clutchTick defaultConfig
        { lastClutchValue := 0, repeatingClutchCount := 0 } 0 40).1.lastClutchValue = 40 ∧
    (clutchTick defaultConfig
        { lastClutchValue := 0, repeatingClutchCount := 0 } 0 40).1.repeatingClutchCount <
      defaultConfig.clutch_repeat_required :=
  clutch_detector_count_invariants defaultConfig
    { lastClutchValue := 0, repeatingClutchCount := 0 } 0 40 (by decide)

lemma gasActivityEstim_best (cfg : Config) (gs : GasState) (es : EstimatorState)
    (t g : Nat) :
    (gasActivityEstim cfg gs es t g).best_estimate_percent = es.best_estimate_percent := by
  unfold gasActivityEstim
  split
  · split
    · rfl
    · split <;> rfl
  · split
    · split <;> rfl
    · rfl

lemma estimTick_best_cases (cfg : Config) (es : EstimatorState) (t g : Nat) :
    (estimTick cfg es t g).es.best_estimate_percent = es.best_estimate_percent ∨
    ((estimTick cfg es t g).es.best_estimate_percent = estimObservedPeak cfg es g ∧
     estimObservedPeak cfg es g < es.best_estimate_percent) := by
  unfold estimTick
  dsimp only
  split
  · split
    · split
      · rename_i hlt
        refine Or.inr ⟨?_, hlt⟩
        split <;> split <;> rfl
      · exact Or.inl rfl
    · exact Or.inl rfl
  · exact Or.inl rfl

lemma estimTick_auto_adjust_spec (cfg : Config) (es : EstimatorState) (t g : Nat) :
    ((estimTick cfg es t g).gas_auto_adjust_applied = false ∧
     (estimTick cfg es t g).cfg = cfg) ∨
    ((estimTick cfg es t g).gas_auto_adjust_applied = true ∧
     (estimTick cfg es t g).cfg.gas_deadzone_out < cfg.gas_deadzone_out ∧
     cfg.auto_gas_deadzone_minimum ≤ (estimTick cfg es t g).cfg.gas_deadzone_out ∧
     (estimTick cfg es t g).cfg.auto_gas_deadzone_minimum = cfg.auto_gas_deadzone_minimum) := by
  unfold estimTick
  dsimp only
  split
  · split
    · split
      · by_cases hadj : (cfg.auto_gas_deadzone_enabled &&
            decide (estimObservedPeak cfg es g < cfg.gas_deadzone_out) &&
            decide (cfg.auto_gas_deadzone_minimum ≤ estimObservedPeak cfg es g)) = true
        · have h1 : estimObservedPeak cfg es g < cfg.gas_deadzone_out := by
            simp only [Bool.and_eq_true, decide_eq_true_eq] at hadj
            exact hadj.1.2
          have h2 : cfg.auto_gas_deadzone_minimum ≤ estimObservedPeak cfg es g := by
            simp only [Bool.and_eq_true, decide_eq_true_eq] at hadj
            exact hadj.2
          refine Or.inr ?_
          simp only [hadj, reduceIte]
          refine ⟨trivial, ?_, ?_, trivial⟩
          · exact h1
          · exact h2
        · refine Or.inl ?_
          simp only [Bool.not_eq_true] at hadj
          simp only [hadj, reduceIte]
          exact ⟨trivial, by simp⟩
      · exact Or.inl ⟨rfl, rfl⟩
    · exact Or.inl ⟨rfl, rfl⟩
  · exact Or.inl ⟨rfl, rfl⟩

lemma gasTick_best_le (cfg : Config) (gs : GasState) (es : EstimatorState)
    (t g : Nat) :
    (gasTick cfg gs es t g).es.best_estimate_percent ≤ es.best_estimate_percent := by
  unfold gasTick
  dsimp only
  split
  · split
    · have h1 := estimTick_best_cases cfg (gasActivityEstim cfg gs es t g) t g
      have h2 := gasActivityEstim_best cfg gs es t g
      rcases h1 with h | ⟨h, hlt⟩ <;>
        exact (by omega :
          (estimTick cfg (gasActivityEstim cfg gs es t g) t g).es.best_estimate_percent ≤
            es.best_estimate_percent)
    · exact Nat.le_of_eq (gasActivityEstim_best cfg gs es t g)
  · exact Nat.le_of_eq (gasActivityEstim_best cfg gs es t g)

lemma gasTick_dz (cfg : Config) (gs : GasState) (es : EstimatorState)
    (t g : Nat) :
    (gasTick cfg gs es t g).cfg.gas_deadzone_out ≤ cfg.gas_deadzone_out ∧
    (gasTick cfg gs es t g).cfg.auto_gas_deadzone_minimum = cfg.auto_gas_deadzone_minimum ∧
    (cfg.auto_gas_deadzone_minimum ≤ cfg.gas_deadzone_out →
      (gasTick cfg gs es t g).cfg.auto_gas_deadzone_minimum ≤
        (gasTick cfg gs es t g).cfg.gas_deadzone_out) := by
  unfold gasTick
  dsimp only
  split
  · split
    · rcases estimTick_auto_adjust_spec cfg (gasActivityEstim cfg gs es t g) t g with
        ⟨_, hc⟩ | ⟨_, h1, h2, h3⟩
      · exact ⟨Nat.le_of_eq (congrArg Config.gas_deadzone_out hc),
          congrArg Config.auto_gas_deadzone_minimum hc,
          fun h => by
            have h4 := congrArg Config.gas_deadzone_out hc
            have h5 := congrArg Config.auto_gas_deadzone_minimum hc
            exact (by omega :
              (estimTick cfg (gasActivityEstim cfg gs es t g) t g).cfg.auto_gas_deadzone_minimum ≤
                (estimTick cfg (gasActivityEstim cfg gs es t g) t g).cfg.gas_deadzone_out)⟩
      · exact ⟨Nat.le_of_lt h1, h3, fun _ =>
          (by omega :
            (estimTick cfg (gasActivityEstim cfg gs es t g) t g).cfg.auto_gas_deadzone_minimum ≤
              (estimTick cfg (gasActivityEstim cfg gs es t g) t g).cfg.gas_deadzone_out)⟩
    · exact ⟨le_refl _, rfl, fun h => h⟩
  · exact ⟨le_refl _, rfl, fun h => h⟩

lemma monitorTick_some_best_le (i : Sample) (s : MonState) :
    ((monitorTick false (some i) 0 false s).1).es.best_estimate_percent ≤
      s.es.best_estimate_percent := by
  unfold monitorTick
  dsimp only
  split
  · exact gasTick_best_le s.cfg s.gs s.es i.currentTime
      (normalize_pedal_axis s.cfg.axis_normalization_enabled i.rawGas s.cfg.axisMax)
  · exact le_refl _

lemma monitorTick_some_dz (i : Sample) (s : MonState) :
    ((monitorTick false (some i) 0 false s).1).cfg.gas_deadzone_out ≤
      s.cfg.gas_deadzone_out ∧
    ((monitorTick false (some i) 0 false s).1).cfg.auto_gas_deadzone_minimum =
      s.cfg.auto_gas_deadzone_minimum ∧
    (s.cfg.auto_gas_deadzone_minimum ≤ s.cfg.gas_deadzone_out →
      ((monitorTick false (some i) 0 false s).1).cfg.auto_gas_deadzone_minimum ≤
        ((monitorTick false (some i) 0 false s).1).cfg.gas_deadzone_out) := by
  unfold monitorTick
  dsimp only
  split
  · exact gasTick_dz s.cfg s.gs s.es i.currentTime
      (normalize_pedal_axis s.cfg.axis_normalization_enabled i.rawGas s.cfg.axisMax)
  · exact ⟨le_refl _, rfl, fun h => h⟩

lemma runTicks_best_le (inputs : List Sample) (s : MonState) :
    (runTicks inputs s).es.best_estimate_percent ≤ s.es.best_estimate_percent := by
  induction inputs generalizing s with
  | nil => exact le_refl _
  | cons i is ih =>
    exact le_trans (ih ((monitorTick false (some i) 0 false s).1))
      (monitorTick_some_best_le i s)

lemma runTicks_dz (inputs : List Sample) (s : MonState) :
    (runTicks inputs s).cfg.gas_deadzone_out ≤ s.cfg.gas_deadzone_out ∧
    (runTicks inputs s).cfg.auto_gas_deadzone_minimum = s.cfg.auto_gas_deadzone_minimum ∧
    (s.cfg.auto_gas_deadzone_minimum ≤ s.cfg.gas_deadzone_out →
      (runTicks inputs s).cfg.auto_gas_deadzone_minimum ≤
        (runTicks inputs s).cfg.gas_deadzone_out) := by
  induction inputs generalizing s with
  | nil => exact ⟨le_refl _, rfl, fun h => h⟩
  | cons i is ih =>
    have hcons : runTicks (i :: is) s =
        runTicks is ((monitorTick false (some i) 0 false s).1) := rfl
    rw [hcons]
    have hstep := monitorTick_some_dz i s
    have hrest := ih ((monitorTick false (some i) 0 false s).1)
    refine ⟨le_trans hrest.1 hstep.1, hrest.2.1.trans hstep.2.1, fun h => ?_⟩
    have h1 := hstep.2.2 h
    have h2 := hrest.2.2 (by omega)
    omega

/-- Claim C3: bestEstimatePercent is monotonically non-increasing over any
sequence of successful ticks (no intervening reconnect); the only operation
that changes it is the estimation-window close, which replaces it exactly by
the window peak observed this tick and only when that candidate is strictly
smaller. -/
theorem best_estimate_percent_monotone :
    (∀ (cfg : Config) (es : EstimatorState) (currentTime gasValue : Nat),
      (estimTick cfg es currentTime gasValue).es.best_estimate_percent =
        es.best_estimate_percent ∨
      ((estimTick cfg es currentTime gasValue).es.best_estimate_percent =
        estimObservedPeak cfg es gasValue ∧
       estimObservedPeak cfg es gasValue < es.best_estimate_percent)) ∧
    (∀ (inputs : List Sample) (s : MonState),
      (runTicks inputs s).es.best_estimate_percent ≤ s.es.best_estimate_percent) :=
  ⟨estimTick_best_cases, runTicks_best_le⟩

/-- Claim C4: whenever auto-adjust fires it assigns gas_deadzone_out a value
strictly smaller than the current one and at least auto_gas_deadzone_minimum;
consequently, across any sequence of ticks (starting from a state satisfying
the startup validation autoAdjustMinimum ≤ gasDeadzoneOut), gas_deadzone_out
never increases and never drops below auto_gas_deadzone_minimum. -/
theorem gas_deadzone_out_auto_adjust_bounds (inputs : List Sample) (s : MonState)
    (hmin : s.cfg.auto_gas_deadzone_minimum ≤ s.cfg.gas_deadzone_out) :
    (runTicks inputs s).cfg.gas_deadzone_out ≤ s.cfg.gas_deadzone_out ∧
    s.cfg.auto_gas_deadzone_minimum ≤ (runTicks inputs s).cfg.gas_deadzone_out ∧
    (∀ (cfg : Config) (es : EstimatorState) (currentTime gasValue : Nat),
      (estimTick cfg es currentTime gasValue).gas_auto_adjust_applied = true →
      (estimTick cfg es currentTime gasValue).cfg.gas_deadzone_out <
          cfg.gas_deadzone_out ∧
        cfg.auto_gas_deadzone_minimum ≤
          (estimTick cfg es currentTime gasValue).cfg.gas_deadzone_out) := by
  have hd := runTicks_dz inputs s
  refine ⟨hd.1, ?_, ?_⟩
  · have := hd.2.2 hmin
    have := hd.2.1
    omega
  · intro cfg es currentTime gasValue hfire
    rcases estimTick_auto_adjust_spec cfg es currentTime gasValue with
      ⟨hf, _⟩ | ⟨_, h1, h2, _⟩
    · rw [hfire] at hf
      cases hf
    · exact ⟨h1, h2⟩

/-- Witness for the claim C4 theorem: empty run from the startup state, whose
configuration satisfies the validated bound 0 ≤ 93. -/
theorem gas_deadzone_out_auto_adjust_bounds_witness :
    (runTicks [] (initMonState 0)).cfg.gas_deadzone_out ≤
      (initMonState 0).cfg.gas_deadzone_out ∧
    (initMonState 0).cfg.auto_gas_deadzone_minimum ≤
      (runTicks [] (initMonState 0)).cfg.gas_deadzone_out ∧
    (∀ (cfg : Config) (es : EstimatorState) (currentTime gasValue : Nat),
      (estimTick cfg es currentTime gasValue).gas_auto_adjust_applied = true →
      (estimTick cfg es currentTime gasValue).cfg.gas_deadzone_out <
          cfg.gas_deadzone_out ∧
        cfg.auto_gas_deadzone_minimum ≤
          (estimTick cfg es currentTime gasValue).cfg.gas_deadzone_out) :=
  gas_deadzone_out_auto_adjust_bounds [] (initMonState 0) (by decide)
